import Mathlib

/-!
Verification development for the PO-DASHBOARD data pipeline
(`src/processing.py`).  The pipeline is shallowly embedded: pandas cell
values become the inductive type `PyVal`, dataframes become lists of
rows, and every pandas operation used by the source is translated into
an executable Lean function.  Exceptions are modelled with `Except` /
`Option`.
-/

namespace PODash

/-- A pandas cell value: a string, an integer (numeric cells are
modelled as integers), a datetime (year, month, day), or the null value
NaN/NaT/None.  -/
inductive PyVal where
  | str (s : String)
  | num (n : Int)
  | date (y m d : Nat)
  | null
deriving DecidableEq

/-- Characters matched by the regex class `\s` and stripped by Python's
`str.strip` (ASCII fragment). -/
def isSpaceChar (c : Char) : Bool :=
  c == ' ' || c == '\t' || c == '\n' || c == '\r' || c == '\x0b' || c == '\x0c'

/-- Characters matched by the regex class `\d` (ASCII fragment). -/
def isDigitChar (c : Char) : Bool :=
  '0' ≤ c && c ≤ '9'

/-- Python `str.strip` on a character list: whitespace removed from both
ends. -/
def stripL (l : List Char) : List Char :=
  ((l.dropWhile isSpaceChar).reverse.dropWhile isSpaceChar).reverse

/-- Python `str.strip`. -/
def stripS (s : String) : String := String.mk (stripL s.data)

/-- Python `str.upper` (ASCII fragment). -/
def upperS (s : String) : String := String.mk (s.data.map Char.toUpper)

/-- Python `str.title` (ASCII fragment): a letter is uppercased when the
previous character is not a letter, lowercased otherwise. -/
def titleAux : Bool → List Char → List Char
  | _, [] => []
  | prev, c :: rest =>
    (if c.isAlpha then (if prev then c.toLower else c.toUpper) else c)
      :: titleAux c.isAlpha rest

/-- Python `str.title` (ASCII fragment). -/
def titleS (s : String) : String := String.mk (titleAux false s.data)

/-- Does `needle` occur at the head of `hay`? -/
def headMatches : List Char → List Char → Bool
  | [], _ => true
  | _ :: _, [] => false
  | a :: as, b :: bs => a == b && headMatches as bs

/-- Python `needle in hay`: case-sensitive substring containment. -/
def hasSub (needle : List Char) : List Char → Bool
  | [] => headMatches needle []
  | c :: rest => headMatches needle (c :: rest) || hasSub needle rest

/-- The decimal digits of a natural number (with fuel, most significant
first). -/
def natDigitsAux : Nat → Nat → List Char → List Char
  | 0, _, acc => acc
  | fuel + 1, n, acc =>
    if n < 10 then Char.ofNat ('0'.toNat + n) :: acc
    else natDigitsAux fuel (n / 10) (Char.ofNat ('0'.toNat + n % 10) :: acc)

/-- Decimal rendering of a natural number. -/
def natToStr (n : Nat) : String := String.mk (natDigitsAux (n + 1) n [])

/-- Decimal rendering of an integer. -/
def intToStr : Int → String
  | Int.ofNat n => natToStr n
  | Int.negSucc n => "-" ++ natToStr (n + 1)

/-- Zero-padded two-digit rendering (as in `strftime` `%m`/`%d`). -/
def pad2 (n : Nat) : String := if n < 10 then "0" ++ natToStr n else natToStr n

/-- Parse a non-empty all-digit character list as a natural number. -/
def parseNatL (l : List Char) : Option Nat :=
  if l ≠ [] ∧ l.all isDigitChar then
    some (l.foldl (fun a c => a * 10 + (c.toNat - '0'.toNat)) 0)
  else Option.none

/-- Parse an optionally signed integer literal. -/
def parseIntL : List Char → Option Int
  | '-' :: rest => (parseNatL rest).map (fun n => -(n : Int))
  | '+' :: rest => (parseNatL rest).map Int.ofNat
  | l => (parseNatL l).map Int.ofNat

/-- Split a character list at every occurrence of the separator
character (Python `str.split(sep)` semantics, no limit). -/
def splitChAux (sep : Char) : List Char → List Char → List (List Char)
  | acc, [] => [acc.reverse]
  | acc, c :: rest =>
    if c == sep then acc.reverse :: splitChAux sep [] rest
    else splitChAux sep (c :: acc) rest

/-- Models `pd.to_datetime(_, errors="coerce")` on the ISO-like date
strings this pipeline produces: `YYYY-M-D` with a four-digit year and
one- or two-digit month and day in calendar range; everything else
coerces to null. -/
def parseDate (s : String) : Option (Nat × Nat × Nat) :=
  match splitChAux '-' [] s.data with
  | [y, m, d] =>
    match parseNatL y, parseNatL m, parseNatL d with
    | some yn, some mn, some dn =>
      if y.length = 4 ∧ (m.length = 1 ∨ m.length = 2)
          ∧ (d.length = 1 ∨ d.length = 2)
          ∧ 1 ≤ mn ∧ mn ≤ 12 ∧ 1 ≤ dn ∧ dn ≤ 31 then
        some (yn, mn, dn)
      else Option.none
    | _, _, _ => Option.none
  | _ => Option.none

/-- `strftime("%Y-%m-%d")`. -/
def fmtDate (y m d : Nat) : String :=
  natToStr y ++ "-" ++ pad2 m ++ "-" ++ pad2 d

/-- Python `str(cell)` / f-string rendering of a cell, as used when the
three header rows are joined into a synthetic column label (`str(nan)`
is `"nan"`) and by `astype(str)`. -/
def pyFmtCell : PyVal → String
  | .str s => s
  | .num n => intToStr n
  | .date y m d => fmtDate y m d
  | .null => "nan"

/-- `pd.to_numeric(_, errors="coerce")` on a cell (numeric literals are
modelled as optionally signed integers). -/
def pyToNumeric : PyVal → PyVal
  | .str s =>
    match parseIntL (stripL s.data) with
    | some n => .num n
    | Option.none => .null
  | .num n => .num n
  | _ => .null

/-- `pd.to_datetime(_, errors="coerce").dt.strftime("%Y-%m-%d")` on one
cell of the `Date` column (the column holds strings; `NaT` renders to
null). -/
def toDatetimeFmt (s : String) : PyVal :=
  match parseDate s with
  | some (y, m, d) => .str (fmtDate y m d)
  | Option.none => .null

/-- Is a cell value a string? (`isinstance(x, str)`). -/
def isStrVal : PyVal → Bool
  | .str _ => true
  | _ => false

-- --- City Name Standardization (`CITY_MAPPING` from src/processing.py) ---

/-- The fixed city mapping table `CITY_MAPPING`. -/
def CITY_MAPPING : List (String × String) := [
  ("AHMEDABAD", "Ahmedabad"),
  ("BALLABHGARH", "Ballabhgarh"), ("BALLABHGRAH", "Ballabhgarh"),
  ("BHALLABHGRAH", "Ballabhgarh"),
  ("BANGALORE", "Bangalore"), ("BANGLORE", "Bangalore"),
  ("BANGLORE (B3)", "Bangalore"), ("BANGLORE (B4)", "Bangalore"),
  ("BANGLORE (MBI)", "Bangalore"), ("BANGLORE (MBL)", "Bangalore"),
  ("BILASPUR", "Bilaspur"), ("BILASPIUR", "Bilaspur"),
  ("BOHRAKALAN", "Bohrakalan"),
  ("BHUVNESHAWAR", "Bhubaneswar"), ("BHUVNESHWAR", "Bhubaneswar"),
  ("CHENNAI", "Chennai"), ("CHENNAI (C5)", "Chennai"),
  ("CHENNIAI", "Chennai"),
  ("COIMBATORE", "Coimbatore"),
  ("DELHI", "Delhi"), ("DEHRADUN", "Dehradun"),
  ("GURGAON", "Gurgaon"), ("G7", "Gurgaon"),
  ("GUWAHATI", "Guwahati"),
  ("GAZIABAD", "Ghaziabad"), ("GHAZIABAD", "Ghaziabad"),
  ("HYDERABAD", "Hyderabad"), ("HYDERABAD (CHC)", "Hyderabad"),
  ("HYDERABAD (CHM)", "Hyderabad"), ("HYDERABAD H3", "Hyderabad"),
  ("HYDERBAD", "Hyderabad"),
  ("JHAJJAR", "Jhajjar"), ("JHAJAR", "Jhajjar"), ("JHAJJAR2", "Jhajjar"),
  ("JHAJJHAR 2", "Jhajjar"),
  ("KOLKATA", "Kolkata"),
  ("KUNDLI", "Kundli"),
  ("LUCKNOW", "Lucknow"),
  ("MOHALI", "Mohali"),
  ("MUMBAI", "Mumbai"), ("MUMBAI (M10)", "Mumbai"),
  ("MUMBAI (M11)", "Mumbai"), ("MUMBAI (M9)", "Mumbai"),
  ("NOIDA", "Noida"), ("GAUTAM BUDH NAGAR", "Noida"),
  ("PUNE", "Pune"),
  ("RAJPUJRA", "Rajpura"), ("RAJPURA", "Rajpura"),
  ("VISHAKHAPATNAM", "Visakhapatnam"),
  ("BHOPAL", "Bhopal"), ("GOA", "Goa"), ("HAPUR", "Hapur"),
  ("INDORE", "Indore"), ("JAIPUR", "Jaipur"),
  ("KERALA", "Kerala"), ("LUDHIANA", "Ludhiana"), ("LUHARI", "Luhari"),
  ("NAGPUR", "Nagpur"),
  ("PATNA", "Patna"), ("RANCHI", "Ranchi"), ("SURAT", "Surat"),
  ("VARANASI", "Varanasi"),
  ("VIJAYAWADA", "Vijayawada")]

/-- `CITY_MAPPING.get(key)`. -/
def cityLookup (k : String) : Option String :=
  (CITY_MAPPING.find? (fun p => p.1 == k)).map Prod.snd

/-- `_standardize_city_name`: non-strings pass through; otherwise strip,
look the uppercased text up in `CITY_MAPPING`, and fall back to
title-case of the stripped input. -/
def standardize_city_name (city : PyVal) : PyVal :=
  match city with
  | .str s =>
    let cleaned := stripS s
    match cityLookup (upperS cleaned) with
    | some c => .str c
    | Option.none => .str (titleS cleaned)
  | v => v

-- --- SKU Name Standardization (`_standardize_sku_name`) ---

/-- Full-suffix match for the regex `\s+\d+\s*g$` with `re.IGNORECASE`
(the character classes are disjoint, so greedy matching is
deterministic). -/
def patWsNumG (l : List Char) : Bool :=
  let l1 := l.dropWhile isSpaceChar
  let l2 := l1.dropWhile isDigitChar
  let l3 := l2.dropWhile isSpaceChar
  decide (l1 ≠ l) && decide (l2 ≠ l1) &&
    (match l3 with
     | [c] => c == 'g' || c == 'G'
     | _ => false)

/-- Full-suffix match for the regex `\s+\d+\s*G$` with `re.IGNORECASE`
(same language as `patWsNumG`; the source lists both patterns). -/
def patWsNumG2 (l : List Char) : Bool :=
  let l1 := l.dropWhile isSpaceChar
  let l2 := l1.dropWhile isDigitChar
  let l3 := l2.dropWhile isSpaceChar
  decide (l1 ≠ l) && decide (l2 ≠ l1) &&
    (match l3 with
     | [c] => c == 'g' || c == 'G'
     | _ => false)

/-- Full-suffix match for the regex `\s+\d+$`. -/
def patWsNum (l : List Char) : Bool :=
  let l1 := l.dropWhile isSpaceChar
  let l2 := l1.dropWhile isDigitChar
  decide (l1 ≠ l) && decide (l2 ≠ l1) && l2.isEmpty

/-- Full-suffix match for the regex `\s*\(Pouch\)$` with
`re.IGNORECASE`. -/
def patPouch (l : List Char) : Bool :=
  match l.dropWhile isSpaceChar with
  | [a, p, o, u, c, h, b] =>
    a == '(' && p.toLower == 'p' && o.toLower == 'o' && u.toLower == 'u'
      && c.toLower == 'c' && h.toLower == 'h' && b == ')'
  | _ => false

/-- `pattern.sub("", s)` for an end-anchored pattern: remove the suffix
starting at the leftmost position whose whole remainder matches. -/
def stripFirstMatch (p : List Char → Bool) : List Char → List Char
  | [] => []
  | c :: rest => if p (c :: rest) then [] else c :: stripFirstMatch p rest

/-- `_standardize_sku_name`: non-strings pass through; names containing
`Rusk` or `Cookies` are returned unchanged; otherwise the four
end-anchored patterns are removed in sequence and the result is
stripped. -/
def standardize_sku_name (sku : PyVal) : PyVal :=
  match sku with
  | .str s =>
    if hasSub "Rusk".data s.data || hasSub "Cookies".data s.data then .str s
    else
      let c1 := stripFirstMatch patWsNumG s.data
      let c2 := stripFirstMatch patWsNumG2 c1
      let c3 := stripFirstMatch patWsNum c2
      let c4 := stripFirstMatch patPouch c3
      .str (String.mk (stripL c4))
  | v => v

-- --- Sheet Reshaper (`_process_main_po_data`) ---

/-- One melted candidate row (`df_melted` right after `melt`): the four
fixed identifier columns, the synthetic merged column label and the
quantity cell. -/
structure Melted where
  itemCode : PyVal
  sku : PyVal
  grammage : PyVal
  casesCol : PyVal
  mergedCol : String
  quantity : PyVal
deriving DecidableEq

/-- A candidate row after the merged label has been split into its
`Date`, `City/Platform` and `PO Number` parts. -/
structure PartsRow where
  itemCode : PyVal
  sku : PyVal
  grammage : PyVal
  casesCol : PyVal
  quantity : PyVal
  date : String
  cp : String
  po : String
deriving DecidableEq

/-- One row of the reshaped output (`final_df`). -/
structure FinalRow where
  skuCode : PyVal
  sku : PyVal
  city : PyVal
  platform : PyVal
  date : PyVal
  poNumber : PyVal
  quantity : Int
deriving DecidableEq

/-- Split a character list at every (leftmost, non-overlapping)
occurrence of the three-character separator `" | "`, as the regex split
`str.split(" \| ")` does on the merged column labels. -/
def splitBarAux : List Char → List Char → List (List Char)
  | acc, ' ' :: '|' :: ' ' :: rest => acc.reverse :: splitBarAux [] rest
  | acc, c :: rest => splitBarAux (c :: acc) rest
  | acc, [] => [acc.reverse]

/-- `str.split(" \| ")` on a merged column label. -/
def splitBar (s : String) : List String :=
  (splitBarAux [] s.data).map String.mk

/-- `str.split("/", n=1)`: the text before the first `/` and, when a
`/` is present, the remainder; `Option.none` models the `None` filler
pandas uses for rows without a separator. -/
def splitSlash1 : List Char → List Char × Option (List Char)
  | [] => ([], Option.none)
  | c :: rest =>
    if c = '/' then ([], some rest)
    else
      let p := splitSlash1 rest
      (c :: p.1, p.2)

/-- The known source-data typo correction applied to the
`City/Platform` column. -/
def replaceTypo (cp : String) : String :=
  if cp = "Ballbhgarh//Zepto" then "Ballabhgarh/Zepto" else cp

/-- Turn one melted candidate whose label splits into exactly three
parts into a `PartsRow`. -/
def toParts (c : Melted) : Option PartsRow :=
  match splitBar c.mergedCol with
  | [d, cp, po] =>
    some ⟨c.itemCode, c.sku, c.grammage, c.casesCol, c.quantity, d, cp, po⟩
  | _ => Option.none

/-- The per-row tail of `_process_main_po_data` (lines 164-182 of
src/processing.py): split `City/Platform` on the first `/`, overwrite
`Platform` with the sheet's own name, standardize the city, coerce the
date and the quantity, drop the row when the quantity is null or not
positive, drop it when any of `SKU Code`, `City`, `Platform`, `Date`,
`PO Number` is null, then trim the PO number and standardize the SKU
name. -/
def rowStep (sheet : String) (c : PartsRow) : Option FinalRow :=
  let citySuff := splitSlash1 c.cp.data
  let cityV := standardize_city_name (.str (String.mk citySuff.1))
  let platV := PyVal.str sheet
  let dateV := toDatetimeFmt c.date
  match pyToNumeric c.quantity with
  | .num q =>
    if 0 < q then
      if c.itemCode ≠ PyVal.null ∧ cityV ≠ PyVal.null ∧ platV ≠ PyVal.null
          ∧ dateV ≠ PyVal.null ∧ PyVal.str c.po ≠ PyVal.null then
        some ⟨c.itemCode, standardize_sku_name c.sku, cityV, platV, dateV,
              .str (stripS c.po), q⟩
      else Option.none
    else Option.none
  | _ => Option.none

/-- Lines 160-183 of `_process_main_po_data`, operating on the melted
candidates of one sheet.  The `.error` results model the exceptions the
pandas code raises there: the merged labels must split into exactly
three columns (they always carry two `" | "` separators), and the
`City/Platform` split with `expand=True, n=1` yields a single column —
which cannot be assigned to the two columns `City`/`Platform` — when no
surviving row contains a `/`. -/
def processMelted (sheet : String) (cands : List Melted) :
    Except Unit (List FinalRow) :=
  if cands.all (fun c => (splitBar c.mergedCol).length == 3) then
    let parts := cands.filterMap toParts
    let parts := parts.filter
      (fun r => !(r.date == "" && r.cp == "" && r.po == ""))
    let parts := parts.map (fun r => { r with cp := replaceTypo r.cp })
    if !parts.isEmpty && parts.all (fun r => !(r.cp.data.contains '/')) then
      .error ()
    else
      .ok (parts.filterMap (rowStep sheet))
  else .error ()

/-- Lines 127-159 of `_process_main_po_data`: unpivot one raw sheet
into melted candidates.  The grid is modelled as the rectangle pandas
builds from the CSV: the first row fixes the width and shorter rows are
padded with null.  `.error` models the exceptions raised when the Zepto
leading column, the dropped labels `0`, `1`, `3`, the three header rows
or the four fixed columns are missing. -/
def reshapeRaw (zepto : Bool) (grid0 : List (List PyVal)) :
    Except Unit (List Melted) :=
  let w0 := (grid0.head?.map List.length).getD 0
  let grid1 := grid0.map (fun r => (List.range w0).map (fun j => (r[j]?).getD .null))
  if zepto ∧ w0 = 0 then .error ()
  else
    let g := if zepto then grid1.map List.tail else grid1
    let w := if zepto then w0 - 1 else w0
    if g.isEmpty then .error ()
    else
      let body := (g.drop 1).take (g.length - 3)
      if body.length < 3 then .error ()
      else if w < 4 then .error ()
      else
        let hdr := fun (k j : Nat) => pyFmtCell (((body[k]?).getD []).getD j .null)
        let data := body.drop 3
        .ok ((List.range (w - 4)).map (fun jd =>
          let j := jd + 4
          let label := hdr 0 j ++ " | " ++ hdr 1 j ++ " | " ++ hdr 2 j
          data.map (fun r =>
            (⟨(r[0]?).getD .null, (r[1]?).getD .null, (r[2]?).getD .null,
              (r[3]?).getD .null, label, (r[j]?).getD .null⟩ : Melted))) |>.flatten)

/-- Processing of one platform sheet inside the `try` block: reshape
the raw grid and run the melted candidates through the row pipeline. -/
def process_sheet (sheet : String) (grid : List (List PyVal)) :
    Except Unit (List FinalRow) :=
  match reshapeRaw (sheet == "Zepto") grid with
  | .error e => .error e
  | .ok cands => processMelted sheet cands

/-- One platform's external source: the configured GID (None models a
missing environment variable, and the empty string is equally falsy)
and the fetched grid (`Option.none` models a `read_csv` failure). -/
structure SheetSource where
  gid : Option String
  fetch : Option (List (List PyVal))

/-- The per-sheet loop body of `_process_main_po_data`: a missing GID
skips the sheet, and any exception while fetching or reshaping is
caught and contributes zero rows. -/
def processSheet (sheet : String) (src : SheetSource) : List FinalRow :=
  match src.gid with
  | Option.none => []
  | some g =>
    if g = "" then []
    else
      match src.fetch with
      | Option.none => []
      | some grid =>
        match process_sheet sheet grid with
        | .ok rows => rows
        | .error _ => []

/-- `SHEET_NAMES`, the fixed platform order. -/
def SHEET_NAMES : List String :=
  ["Blinkit", "Swiggy", "Big Basket", "Flipkart", "Zepto"]

/-- `_process_main_po_data`: process the five platform sheets in order
and concatenate their outputs. -/
def process_main_po_data (srcs : String → SheetSource) : List FinalRow :=
  (SHEET_NAMES.map (fun n => processSheet n (srcs n))).flatten

/-- A platform sheet whose processing raises inside the `try` block:
its GID is configured but either the fetch (`read_csv`) fails or the
reshape errors. -/
def sheetRaises (name : String) (src : SheetSource) : Prop :=
  ∃ g, src.gid = some g ∧ g ≠ ""
    ∧ (src.fetch = Option.none
       ∨ ∃ grid, src.fetch = some grid ∧ process_sheet name grid = .error ())

-- --- Detail Merger (`_fetch_and_clean_po_details`, `get_final_po_data`) ---

/-- The raw PO-details table as fetched: a header row of column names
and the data rows. -/
structure RawTable where
  cols : List String
  rows : List (List PyVal)

/-- The error taxonomy of the details path: `config` models the
`ValueError` for unset source-location environment variables, `source`
the `ConnectionError` wrapped around a failed `read_csv`, and `schema`
the `ValueError` for a missing `PO Number` column. -/
inductive FetchErr where
  | config
  | source
  | schema
deriving DecidableEq

/-- Configuration and transport for the details sheet: the two
source-location parameters (None models an unset environment variable)
and the fetched table (`Option.none` models a failed fetch). -/
structure DetailsCfg where
  sheet_id : Option String
  gid : Option String
  fetch : Option RawTable

/-- Python falsiness of an optional string (`if not sheet_id`). -/
def optFalsy : Option String → Bool
  | Option.none => true
  | some s => s == ""

/-- The column rename `{'PO No.': 'PO Number', 'PO Value': 'PO VALUE'}`
applied to one column name. -/
def renameCol (c : String) : String :=
  if c = "PO No." then "PO Number" else if c = "PO Value" then "PO VALUE" else c

/-- The details header after the rename. -/
def renamedCols (t : RawTable) : List String := t.cols.map renameCol

/-- `columns_to_keep`, the fixed allow-list. -/
def columns_to_keep : List String :=
  ["PO Number", "DISPATCH DATE", "APPOINTMENT DATE", "LEAD TIME",
   "PO VALUE", "PO INVOICE"]

/-- The allow-list columns actually present, in allow-list order
(`existing_columns_to_keep`).  When `PO Number` is present it is the
first kept column. -/
def keptCols (t : RawTable) : List String :=
  columns_to_keep.filter (fun c => (renamedCols t).contains c)

/-- First position of a column name in the renamed header. -/
def colIdx (t : RawTable) (c : String) : Nat := (renamedCols t).indexOf c

/-- The date coercion applied to the `DISPATCH DATE` and `APPOINTMENT
DATE` columns (other columns pass through). -/
def convertCell (c : String) (v : PyVal) : PyVal :=
  if c = "DISPATCH DATE" ∨ c = "APPOINTMENT DATE" then
    match v with
    | .str s =>
      match parseDate s with
      | some (y, m, d) => .date y m d
      | Option.none => .null
    | _ => .null
  else v

/-- One cleaned details row: the trimmed `PO Number` string (the first
kept column, run through `astype(str).str.strip()`) paired with the
cells of the remaining kept columns. -/
abbrev DetailRow := String × List PyVal

/-- The raw cell of the `PO Number` column in one row. -/
def rawPoCell (t : RawTable) (raw : List PyVal) : PyVal :=
  (raw[colIdx t "PO Number"]?).getD .null

/-- The cleaned (but not yet deduplicated) details rows: project onto
the kept columns, coerce the date columns, and trim the PO numbers. -/
def cleanRows (t : RawTable) : List DetailRow :=
  t.rows.map (fun raw =>
    (stripS (pyFmtCell (rawPoCell t raw)),
     ((keptCols t).drop 1).map (fun c =>
       convertCell c ((raw[colIdx t c]?).getD .null))))

/-- `drop_duplicates(subset=['PO Number'])` with the default
`keep="first"`: a row survives when no earlier row carries the same
key. -/
def dedupAux (seen : List String) : List DetailRow → List DetailRow
  | [] => []
  | r :: rest =>
    if r.1 ∈ seen then dedupAux seen rest
    else r :: dedupAux (r.1 :: seen) rest

/-- Deduplication by PO number, keeping the first occurrence. -/
def dedupByPo (l : List DetailRow) : List DetailRow := dedupAux [] l

/-- `_fetch_and_clean_po_details`: configuration check, fetch, rename,
schema check, projection, coercion, trim and deduplication. -/
def fetch_and_clean_po_details (cfg : DetailsCfg) :
    Except FetchErr (List DetailRow) :=
  if optFalsy cfg.sheet_id || optFalsy cfg.gid then .error .config
  else
    match cfg.fetch with
    | Option.none => .error .source
    | some t =>
      if "PO Number" ∈ renamedCols t then .ok (dedupByPo (cleanRows t))
      else .error .schema

/-- `pd.merge(main_po_df, details_df, on='PO Number', how='left')`: one
output row per left row and matching detail row, and a single row with
null detail fields (modelled as `Option.none`) when no detail
matches. -/
def mergeLeft (mainPo : List FinalRow) (details : List DetailRow) :
    List (FinalRow × Option (List PyVal)) :=
  (mainPo.map (fun L =>
    let ms := details.filter (fun d => PyVal.str d.1 == L.poNumber)
    if ms.isEmpty then [(L, Option.none)]
    else ms.map (fun d => (L, some d.2)))).flatten

/-- `get_final_po_data`: concatenate the platform outputs; on an empty
concatenation return the empty table without touching the details
source; otherwise fetch and clean the details (propagating its errors)
and either return the line items untouched (details empty, the pairing
with `Option.none` models the absent detail columns) or left-join. -/
def get_final_po_data (srcs : String → SheetSource) (cfg : DetailsCfg) :
    Except FetchErr (List (FinalRow × Option (List PyVal))) :=
  let mainPo := process_main_po_data srcs
  if mainPo.isEmpty then .ok []
  else
    match fetch_and_clean_po_details cfg with
    | .error e => .error e
    | .ok ds =>
      if ds.isEmpty then .ok (mainPo.map (fun L => (L, Option.none)))
      else .ok (mergeLeft mainPo ds)

-- --- Concrete data used by witnesses and counterexamples ---

/-- A small Blinkit-shaped raw sheet: title row, three header rows, one
data row, two footer rows; four fixed columns and one dynamic column. -/
def grid_ok : List (List PyVal) := [
  [.str "t", .null, .null, .null, .null],
  [.null, .null, .null, .null, .str "2024-01-02"],
  [.null, .null, .null, .null, .str "Delhi/Blinkit"],
  [.null, .null, .null, .null, .str "PO1"],
  [.str "A1", .str "Choco", .str "10g", .str "2", .str "5"],
  [.null, .null, .null, .null, .null],
  [.null, .null, .null, .null, .null]]

/-- A platform source serving `grid_ok`. -/
def src_ok : SheetSource := ⟨some "g1", some grid_ok⟩

/-- The single line item produced from `grid_ok`. -/
def row_ok : FinalRow :=
  ⟨.str "A1", .str "Choco", .str "Delhi", .str "Blinkit",
   .str "2024-01-02", .str "PO1", 5⟩

/-- `grid_ok` with the SKU cell of the data row blanked out (a null
`SKU` value). -/
def grid_nullsku : List (List PyVal) := [
  [.str "t", .null, .null, .null, .null],
  [.null, .null, .null, .null, .str "2024-01-02"],
  [.null, .null, .null, .null, .str "Delhi/Blinkit"],
  [.null, .null, .null, .null, .str "PO1"],
  [.str "A1", .null, .str "10g", .str "2", .str "5"],
  [.null, .null, .null, .null, .null],
  [.null, .null, .null, .null, .null]]

/-- A platform source serving `grid_nullsku`. -/
def src_nullsku : SheetSource := ⟨some "g2", some grid_nullsku⟩

/-- The line item produced from `grid_nullsku`: its `SKU` field is
null. -/
def row_nullsku : FinalRow :=
  ⟨.str "A1", PyVal.null, .str "Delhi", .str "Blinkit",
   .str "2024-01-02", .str "PO1", 5⟩

/-- A source whose GID is unset (the platform is skipped). -/
def src_skip : SheetSource := ⟨Option.none, Option.none⟩

/-- A source whose fetched grid makes the reshape raise (an empty
grid). -/
def src_err : SheetSource := ⟨some "gz", some []⟩

/-- Five sources: Blinkit delivers `grid_ok`, Zepto raises, the rest
are skipped. -/
def srcs_nine : String → SheetSource := fun n =>
  if n = "Blinkit" then src_ok else if n = "Zepto" then src_err else src_skip

/-- Five sources that are all skipped: every platform yields zero
rows. -/
def srcs_skip : String → SheetSource := fun _ => src_skip

/-- Five sources with only Blinkit configured. -/
def srcs_one : String → SheetSource := fun n =>
  if n = "Blinkit" then src_ok else src_skip

/-- Melted candidates whose second composite contains no `/` (the first
does, so the two-column expansion succeeds). -/
def cands_mixed : List Melted := [
  ⟨.str "A1", .str "S1", .str "g", .str "1",
   "2024-01-02 | Delhi/Blinkit | POA", .str "2"⟩,
  ⟨.str "A2", .str "S2", .str "g", .str "1",
   "2024-01-03 | Mumbai | POB", .str "4"⟩]

/-- Output of `processMelted "Blinkit" cands_mixed`, first row. -/
def row_mixA : FinalRow :=
  ⟨.str "A1", .str "S1", .str "Delhi", .str "Blinkit",
   .str "2024-01-02", .str "POA", 2⟩

/-- Output of `processMelted "Blinkit" cands_mixed`, second row: its
composite `"Mumbai"` has no slash, the whole composite becomes the
city and the platform is the sheet's name. -/
def row_mixB : FinalRow :=
  ⟨.str "A2", .str "S2", .str "Mumbai", .str "Blinkit",
   .str "2024-01-03", .str "POB", 4⟩

/-- A details table with a duplicated PO number (after trimming), an
unparseable dispatch date, and columns that exercise both renames. -/
def tbl_dup : RawTable :=
  ⟨["PO No.", "DISPATCH DATE", "Other", "PO Value"],
   [[.str " PO1 ", .str "2024-02-03", .str "x", .num 9],
    [.str "PO1", .str "2024-02-04", .str "y", .num 8],
    [.str "PO2", .str "bad", .str "z", .num 7]]⟩

/-- A well-configured details source serving `tbl_dup`. -/
def cfg_dup : DetailsCfg := ⟨some "sid", some "gid", some tbl_dup⟩

/-- The cleaned details rows produced from `tbl_dup`: first `PO1` row
kept, PO numbers trimmed, the bad dispatch date coerced to null. -/
def fetchCleanDup : List DetailRow :=
  [("PO1", [.date 2024 2 3, .num 9]), ("PO2", [.null, .num 7])]

/-- A details source with its sheet id unset and a failing fetch. -/
def cfg_err : DetailsCfg := ⟨Option.none, some "gid", Option.none⟩

/-- A well-configured details source whose table has a `PO Number`
header but no rows. -/
def cfg_empty : DetailsCfg := ⟨some "sid", some "gid", some ⟨["PO Number"], []⟩⟩

-- --- Lemmas ---

theorem standardize_city_str_ne_null (s : String) :
    standardize_city_name (.str s) ≠ PyVal.null := by
  unfold standardize_city_name
  cases h : cityLookup (upperS (stripS s)) <;> simp [h]

/-- Every row `rowStep` emits satisfies the row-drop invariant, and its
`Platform` is the processing sheet's own name. -/
theorem rowStep_some {sheet : String} {c : PartsRow} {r : FinalRow}
    (h : rowStep sheet c = some r) :
    0 < r.quantity ∧ r.skuCode ≠ PyVal.null ∧ r.city ≠ PyVal.null
      ∧ r.platform = PyVal.str sheet ∧ r.date ≠ PyVal.null
      ∧ r.poNumber ≠ PyVal.null := by
  unfold rowStep at h
  dsimp only at h
  split at h
  · split at h
    · split at h
      · simp only [Option.some.injEq] at h
        subst h
        rename_i q hq hcond
        refine ⟨hq, hcond.1, hcond.2.1, rfl, hcond.2.2.2.1, by simp⟩
      · exact absurd h (by simp)
    · exact absurd h (by simp)
  · exact absurd h (by simp)

/-- Rows of a successful `processMelted` run all come from
`rowStep`. -/
theorem processMelted_ok_mem {sheet : String} {cands : List Melted}
    {out : List FinalRow} (h : processMelted sheet cands = .ok out)
    {r : FinalRow} (hr : r ∈ out) : ∃ c, rowStep sheet c = some r := by
  unfold processMelted at h
  dsimp only at h
  split at h
  · split at h
    · exact absurd h (by simp)
    · simp only [Except.ok.injEq] at h
      subst h
      exact List.mem_filterMap.mp hr |>.imp (fun c hc => hc.2)
  · exact absurd h (by simp)

/-- Rows of `processSheet` all come from `rowStep`. -/
theorem processSheet_mem {name : String} {src : SheetSource} {r : FinalRow}
    (hr : r ∈ processSheet name src) : ∃ c, rowStep name c = some r := by
  unfold processSheet at hr
  split at hr
  · exact absurd hr (List.not_mem_nil r)
  · split at hr
    · exact absurd hr (List.not_mem_nil r)
    · split at hr
      · exact absurd hr (List.not_mem_nil r)
      · split at hr
        · rename_i rows hok
          unfold process_sheet at hok
          split at hok
          · exact absurd hok (by simp)
          · exact processMelted_ok_mem hok hr
        · exact absurd hr (List.not_mem_nil r)

theorem dedupAux_sub {l : List DetailRow} {seen : List String} {x : DetailRow}
    (hx : x ∈ dedupAux seen l) : x ∈ l := by
  induction l generalizing seen with
  | nil => simp [dedupAux] at hx
  | cons r rest ih =>
    unfold dedupAux at hx
    split at hx
    · exact List.mem_cons_of_mem r (ih hx)
    · rcases List.mem_cons.mp hx with h | h
      · exact h ▸ List.mem_cons_self r rest
      · exact List.mem_cons_of_mem r (ih h)

theorem dedupAux_nodup (l : List DetailRow) (seen : List String) :
    ((dedupAux seen l).map Prod.fst).Nodup
      ∧ ∀ x ∈ dedupAux seen l, x.1 ∉ seen := by
  induction l generalizing seen with
  | nil => simp [dedupAux]
  | cons r rest ih =>
    unfold dedupAux
    split
    · exact ⟨(ih seen).1, fun x hx => (ih seen).2 x hx⟩
    · rename_i hr
      obtain ⟨ihn, ihs⟩ := ih (r.1 :: seen)
      refine ⟨?_, ?_⟩
      · simp only [List.map_cons, List.nodup_cons]
        refine ⟨fun hmem => ?_, ihn⟩
        obtain ⟨x, hx, hx1⟩ := List.mem_map.mp hmem
        exact (ihs x hx) (hx1 ▸ List.mem_cons_self _ _)
      · intro x hx
        rcases List.mem_cons.mp hx with h | h
        · exact h ▸ hr
        · exact fun hseen => (ihs x h) (List.mem_cons_of_mem _ hseen)

theorem dedupAux_filter (l : List DetailRow) (seen : List String) (p : String)
    (hp : p ∉ seen) :
    (dedupAux seen l).filter (fun r => r.1 == p)
      = (l.filter (fun r => r.1 == p)).take 1 := by
  induction l generalizing seen with
  | nil => simp [dedupAux]
  | cons r rest ih =>
    unfold dedupAux
    by_cases hr : r.1 ∈ seen
    · rw [if_pos hr, ih seen hp, List.filter_cons]
      have hrp : (r.1 == p) = false := by
        rw [beq_eq_false_iff_ne]
        intro h
        exact hp (h ▸ hr)
      simp [hrp]
    · rw [if_neg hr, List.filter_cons, List.filter_cons]
      by_cases hrp : r.1 = p
      · have hb : (r.1 == p) = true := beq_iff_eq.mpr hrp
        rw [if_pos hb, if_pos hb]
        have htail :
            (dedupAux (r.1 :: seen) rest).filter (fun x => x.1 == p) = [] := by
          rw [List.filter_eq_nil_iff]
          intro x hx hpx
          have hxr : x.1 ≠ r.1 := by
            intro h
            exact (dedupAux_nodup rest (r.1 :: seen)).2 x hx
              (h ▸ List.mem_cons_self _ _)
          exact hxr (beq_iff_eq.mp hpx |>.trans hrp.symm)
        rw [htail]
        simp
      · have hb : (r.1 == p) = false := beq_eq_false_iff_ne.mpr hrp
        rw [if_neg (by simp [hb]), if_neg (by simp [hb])]
        exact ih (r.1 :: seen) (by
          intro h
          rcases List.mem_cons.mp h with h | h
          · exact hrp h.symm
          · exact hp h)

/-- When the detail keys are pairwise distinct, the rows matching a key
are exactly the row `find?` locates (or none). -/
theorem filter_key_single (details : List DetailRow) (v : PyVal)
    (hn : (details.map Prod.fst).Nodup) :
    details.filter (fun d => PyVal.str d.1 == v)
      = match details.find? (fun d => PyVal.str d.1 == v) with
        | some d => [d]
        | Option.none => [] := by
  induction details with
  | nil => simp
  | cons d rest ih =>
    simp only [List.map_cons, List.nodup_cons] at hn
    by_cases hd : (PyVal.str d.1 == v) = true
    · rw [List.filter_cons, if_pos hd, List.find?_cons_of_pos rest hd]
      have htail : rest.filter (fun x => PyVal.str x.1 == v) = [] := by
        rw [List.filter_eq_nil_iff]
        intro x hx hpx
        have : x.1 = d.1 := by
          have h1 : PyVal.str x.1 = v := beq_iff_eq.mp hpx
          have h2 : PyVal.str d.1 = v := beq_iff_eq.mp hd
          have := h1.trans h2.symm
          exact PyVal.str.inj this
        exact hn.1 (List.mem_map.mpr ⟨x, hx, this⟩)
      rw [htail]
    · rw [List.filter_cons, if_neg hd, List.find?_cons_of_neg rest hd]
      exact ih hn.2

-- --- Claim theorems ---

/-- C1: for every row in the Reshaper's output for any platform,
Quantity is strictly greater than 0 and none of SKU Code, City,
Platform, Date, PO Number is null; candidate rows violating either
condition are dropped by the row-drop sequence embedded in
`rowStep`. -/
theorem c1_row_drop_invariant (name : String) (src : SheetSource)
    (r : FinalRow) (hr : r ∈ processSheet name src) :
    0 < r.quantity ∧ r.skuCode ≠ PyVal.null ∧ r.city ≠ PyVal.null
      ∧ r.platform ≠ PyVal.null ∧ r.date ≠ PyVal.null
      ∧ r.poNumber ≠ PyVal.null := by
  obtain ⟨c, hc⟩ := processSheet_mem hr
  obtain ⟨h1, h2, h3, h4, h5, h6⟩ := rowStep_some hc
  exact ⟨h1, h2, h3, by simp [h4], h5, h6⟩

/-- Witness for C1 at the concrete sheet `grid_ok`. -/
theorem c1_witness :
    0 < row_ok.quantity ∧ row_ok.skuCode ≠ PyVal.null
      ∧ row_ok.city ≠ PyVal.null ∧ row_ok.platform ≠ PyVal.null
      ∧ row_ok.date ≠ PyVal.null ∧ row_ok.poNumber ≠ PyVal.null :=
  c1_row_drop_invariant "Blinkit" src_ok row_ok (by decide)

/-- C2 counterexample: it is not the case that every LineItem in the
Reshaper's output has a non-null `SKU` field — the sheet `grid_nullsku`
produces the output row `row_nullsku` whose `SKU` is null, because the
final dropna subset contains only the five identifier fields and not
`SKU` itself. -/
theorem c2_counterexample :
    ¬ (∀ (name : String) (src : SheetSource) (r : FinalRow),
        r ∈ processSheet name src → r.sku ≠ PyVal.null) := by
  intro hall
  exact hall "Blinkit" src_nullsku row_nullsku (by decide) rfl

/-- C2 (amended): every LineItem in the Reshaper's output has the five
fields SKU Code, City, Platform, Date and PO Number non-null; a
candidate row with a null among those five is dropped, but the `SKU`
field itself is not checked and may be null in the output. -/
theorem c2_amended_five_fields (name : String) (src : SheetSource)
    (r : FinalRow) (hr : r ∈ processSheet name src) :
    r.skuCode ≠ PyVal.null ∧ r.city ≠ PyVal.null
      ∧ r.platform ≠ PyVal.null ∧ r.date ≠ PyVal.null
      ∧ r.poNumber ≠ PyVal.null := by
  obtain ⟨c, hc⟩ := processSheet_mem hr
  obtain ⟨_, h2, h3, h4, h5, h6⟩ := rowStep_some hc
  exact ⟨h2, h3, by simp [h4], h5, h6⟩

/-- Witness for the amended C2 at the concrete sheet `grid_nullsku`. -/
theorem c2_witness :
    row_nullsku.skuCode ≠ PyVal.null ∧ row_nullsku.city ≠ PyVal.null
      ∧ row_nullsku.platform ≠ PyVal.null ∧ row_nullsku.date ≠ PyVal.null
      ∧ row_nullsku.poNumber ≠ PyVal.null :=
  c2_amended_five_fields "Blinkit" src_nullsku row_nullsku (by decide)

/-- C3: `_standardize_sku_name` returns non-strings unchanged, returns
strings containing the protected keywords `Rusk` or `Cookies`
(case-sensitive substring match) unchanged, and otherwise removes the
end-anchored patterns in sequence and trims; the five spec examples
evaluate as stated. -/
theorem c3_standardize_sku :
    (∀ v : PyVal, isStrVal v = false → standardize_sku_name v = v)
  ∧ (∀ s : String,
      (hasSub "Rusk".data s.data || hasSub "Cookies".data s.data) = true →
      standardize_sku_name (.str s) = .str s)
  ∧ standardize_sku_name (.str "Premium Rusk 150g") = .str "Premium Rusk 150g"
  ∧ standardize_sku_name (.str "Choco Bar 150g") = .str "Choco Bar"
  ∧ standardize_sku_name (.str "Choco Bar 150 G") = .str "Choco Bar"
  ∧ standardize_sku_name (.str "Choco Bar (Pouch)") = .str "Choco Bar"
  ∧ standardize_sku_name (.str "Item 28") = .str "Item" := by
  refine ⟨?_, ?_, by decide, by decide, by decide, by decide, by decide⟩
  · intro v hv
    cases v with
    | str s => simp [isStrVal] at hv
    | num n => rfl
    | date y m d => rfl
    | null => rfl
  · intro s h
    unfold standardize_sku_name
    simp [h]

/-- Witness for C3: a non-string passes through and a protected keyword
blocks cleaning. -/
theorem c3_witness :
    standardize_sku_name PyVal.null = PyVal.null
      ∧ standardize_sku_name (.str "Milk Rusk 42") = .str "Milk Rusk 42" :=
  ⟨c3_standardize_sku.1 PyVal.null (by decide),
   c3_standardize_sku.2.1 "Milk Rusk 42" (by decide)⟩

/-- C4: `_standardize_city_name` returns non-strings unchanged; for
strings it trims, looks the uppercased text up in `CITY_MAPPING`,
returns the canonical name on a hit and the title-cased trimmed input
on a miss; the four spec examples evaluate as stated. -/
theorem c4_standardize_city :
    (∀ v : PyVal, isStrVal v = false → standardize_city_name v = v)
  ∧ (∀ s c, cityLookup (upperS (stripS s)) = some c →
      standardize_city_name (.str s) = .str c)
  ∧ (∀ s, cityLookup (upperS (stripS s)) = Option.none →
      standardize_city_name (.str s) = .str (titleS (stripS s)))
  ∧ standardize_city_name (.str "BANGLORE (B3)") = .str "Bangalore"
  ∧ standardize_city_name (.str "bangalore") = .str "Bangalore"
  ∧ standardize_city_name (.str " Bangalore ") = .str "Bangalore"
  ∧ standardize_city_name (.str "Sometown") = .str "Sometown" := by
  refine ⟨?_, ?_, ?_, by decide, by decide, by decide, by decide⟩
  · intro v hv
    cases v with
    | str s => simp [isStrVal] at hv
    | num n => rfl
    | date y m d => rfl
    | null => rfl
  · intro s c h
    unfold standardize_city_name
    simp [h]
  · intro s h
    unfold standardize_city_name
    simp [h]

/-- Witness for C4: a mapping hit, a mapping miss and a non-string. -/
theorem c4_witness :
    standardize_city_name (PyVal.num 7) = PyVal.num 7
      ∧ standardize_city_name (.str "DELHI") = .str "Delhi"
      ∧ standardize_city_name (.str "harlem") = .str (titleS (stripS "harlem")) :=
  ⟨c4_standardize_city.1 (PyVal.num 7) (by decide),
   c4_standardize_city.2.1 "DELHI" "Delhi" (by decide),
   c4_standardize_city.2.2.1 "harlem" (by decide)⟩

/-- C5: the merge is a left join on PO Number — when the detail keys
are pairwise distinct every LineItem appears exactly once, carrying the
fields of the unique matching PODetail or null detail fields when none
matches; and unconditionally every merged record stems from a LineItem,
so unmatched PODetails contribute no output row. -/
theorem c5_merge_left_join (mainPo : List FinalRow) (details : List DetailRow)
    (hn : (details.map Prod.fst).Nodup) :
    mergeLeft mainPo details
      = mainPo.map (fun L =>
          (L, (details.find? (fun d => PyVal.str d.1 == L.poNumber)).map
                Prod.snd))
    ∧ ∀ rec ∈ mergeLeft mainPo details, rec.1 ∈ mainPo := by
  constructor
  · induction mainPo with
    | nil => rfl
    | cons L rest ih =>
      unfold mergeLeft at ih ⊢
      simp only [List.map_cons, List.flatten_cons]
      rw [filter_key_single details L.poNumber hn]
      cases hfind : details.find? (fun d => PyVal.str d.1 == L.poNumber) with
      | none => simp [hfind, ih]
      | some d => simp [hfind, ih]
  · intro rec hrec
    unfold mergeLeft at hrec
    obtain ⟨l, hl, hrl⟩ := List.mem_flatten.mp hrec
    obtain ⟨L, hL, rfl⟩ := List.mem_map.mp hl
    dsimp only at hrl
    split at hrl
    · simp only [List.mem_singleton] at hrl
      rw [hrl]
      exact hL
    · obtain ⟨d, _, rfl⟩ := List.mem_map.mp hrl
      exact hL

/-- Witness for C5: a two-item main table against a one-row details
table, evaluated to the concrete join result. -/
theorem c5_witness :
    mergeLeft [row_ok, row_mixB] [("PO1", [PyVal.date 2024 2 3])]
      = [(row_ok, some [PyVal.date 2024 2 3]), (row_mixB, Option.none)] :=
  ((c5_merge_left_join [row_ok, row_mixB] [("PO1", [PyVal.date 2024 2 3])]
      (by decide)).1).trans (by decide)

/-- C6: after `_fetch_and_clean_po_details` succeeds, at most one
detail row per PO Number remains, the surviving row for each PO Number
is the first (in input order) among the cleaned rows with that key, and
every surviving key is the trimmed rendering of the raw PO cell of some
input row. -/
theorem c6_details_dedup (cfg : DetailsCfg) (t : RawTable)
    (out : List DetailRow) (hf : cfg.fetch = some t)
    (h : fetch_and_clean_po_details cfg = .ok out) :
    ((out.map Prod.fst).Nodup)
  ∧ (∀ p, out.filter (fun r => r.1 == p)
        = ((cleanRows t).filter (fun r => r.1 == p)).take 1)
  ∧ (∀ r ∈ out, ∃ raw ∈ t.rows,
        r.1 = stripS (pyFmtCell (rawPoCell t raw))) := by
  unfold fetch_and_clean_po_details at h
  split at h
  · exact absurd h (by simp)
  · split at h
    · exact absurd h (by simp)
    · rename_i t' heq
      rw [hf] at heq
      injection heq with heq
      subst heq
      split at h
      · simp only [Except.ok.injEq] at h
        subst h
        unfold dedupByPo
        refine ⟨(dedupAux_nodup _ _).1, ?_, ?_⟩
        · intro p
          exact dedupAux_filter _ [] p (List.not_mem_nil p)
        · intro r hr
          have hmem := dedupAux_sub hr
          unfold cleanRows at hmem
          obtain ⟨raw, hraw, hmap⟩ := List.mem_map.mp hmem
          exact ⟨raw, hraw, by rw [← hmap]⟩
      · exact absurd h (by simp)

/-- Witness for C6 at the concrete table `tbl_dup`: the duplicated
`PO1` keeps its first row. -/
theorem c6_witness :
    ((fetchCleanDup.map Prod.fst).Nodup)
  ∧ (fetchCleanDup.filter (fun r => r.1 == "PO1")
        = ((cleanRows tbl_dup).filter (fun r => r.1 == "PO1")).take 1) := by
  have h := c6_details_dedup cfg_dup tbl_dup fetchCleanDup rfl rfl
  exact ⟨h.1, h.2.1 "PO1"⟩

/-- C7: when the concatenated platform output is empty the orchestrator
returns the empty table for every details configuration — even one
whose fetch would fail — so the details fetch is never consulted; when
it is non-empty but the cleaned details table has no rows, the line
items are returned unmerged (the `Option.none` payload models the
absent detail columns). -/
theorem c7_orchestrator_empty (srcs : String → SheetSource)
    (cfg : DetailsCfg) :
    ((process_main_po_data srcs).isEmpty = true →
      get_final_po_data srcs cfg = .ok [])
  ∧ ((process_main_po_data srcs).isEmpty = false →
      fetch_and_clean_po_details cfg = .ok [] →
      get_final_po_data srcs cfg
        = .ok ((process_main_po_data srcs).map (fun L => (L, Option.none)))) := by
  constructor
  · intro h
    unfold get_final_po_data
    simp [h]
  · intro h hd
    unfold get_final_po_data
    simp [h, hd]

/-- Witness for C7: all platforms skipped with a broken details source,
and a one-row main table with an empty details table. -/
theorem c7_witness :
    get_final_po_data srcs_skip cfg_err = .ok []
  ∧ get_final_po_data srcs_one cfg_empty = .ok [(row_ok, Option.none)] :=
  ⟨(c7_orchestrator_empty srcs_skip cfg_err).1 (by decide),
   ((c7_orchestrator_empty srcs_one cfg_empty).2 (by decide) rfl).trans rfl⟩

/-- C8: `_fetch_and_clean_po_details` fails with the configuration
error exactly when a source-location parameter is unset (or empty),
with the source error exactly when the parameters are set but the fetch
fails, and with the schema error exactly when the fetch succeeds but no
`PO Number` column exists after the rename; and each failure propagates
through `get_final_po_data` whenever the line items are non-empty. -/
theorem c8_details_errors (cfg : DetailsCfg) :
    (fetch_and_clean_po_details cfg = .error .config
       ↔ (optFalsy cfg.sheet_id || optFalsy cfg.gid) = true)
  ∧ (fetch_and_clean_po_details cfg = .error .source
       ↔ (optFalsy cfg.sheet_id || optFalsy cfg.gid) = false
          ∧ cfg.fetch = Option.none)
  ∧ (fetch_and_clean_po_details cfg = .error .schema
       ↔ (optFalsy cfg.sheet_id || optFalsy cfg.gid) = false
          ∧ ∃ t, cfg.fetch = some t ∧ "PO Number" ∉ renamedCols t)
  ∧ (∀ (srcs : String → SheetSource) (e : FetchErr),
       fetch_and_clean_po_details cfg = .error e →
       (process_main_po_data srcs).isEmpty = false →
       get_final_po_data srcs cfg = .error e) := by
  refine ⟨?_, ?_, ?_, ?_⟩
  · by_cases hb : (optFalsy cfg.sheet_id || optFalsy cfg.gid) = true
    · simp [fetch_and_clean_po_details, hb]
    · cases hf : cfg.fetch with
      | none => simp [fetch_and_clean_po_details, hb, hf]
      | some t =>
        by_cases hm : "PO Number" ∈ renamedCols t <;>
          simp [fetch_and_clean_po_details, hb, hf, hm]
  · by_cases hb : (optFalsy cfg.sheet_id || optFalsy cfg.gid) = true
    · simp [fetch_and_clean_po_details, hb]
    · cases hf : cfg.fetch with
      | none => simp [fetch_and_clean_po_details, hb, hf, Bool.not_eq_true _ ▸ hb]
      | some t =>
        by_cases hm : "PO Number" ∈ renamedCols t <;>
          simp [fetch_and_clean_po_details, hb, hf, hm]
  · by_cases hb : (optFalsy cfg.sheet_id || optFalsy cfg.gid) = true
    · simp [fetch_and_clean_po_details, hb]
    · cases hf : cfg.fetch with
      | none => simp [fetch_and_clean_po_details, hb, hf]
      | some t =>
        by_cases hm : "PO Number" ∈ renamedCols t <;>
          simp [fetch_and_clean_po_details, hb, hf, hm]
  · intro srcs e h hm
    unfold get_final_po_data
    simp [hm, h]

/-- Witness for C8: an unset sheet id yields the configuration error
and it surfaces through the orchestrator. -/
theorem c8_witness :
    fetch_and_clean_po_details cfg_err = .error .config
  ∧ get_final_po_data srcs_one cfg_err = .error FetchErr.config :=
  ⟨(c8_details_errors cfg_err).1.mpr (by decide),
   (c8_details_errors cfg_err).2.2.2 srcs_one .config
     ((c8_details_errors cfg_err).1.mpr (by decide)) (by decide)⟩

/-- C9: when one platform's reshape raises, that platform contributes
zero rows — the exception is caught — and the orchestrator's output is
exactly the concatenation of the other platforms' outputs, which are
unaffected. -/
theorem c9_platform_isolation (srcs : String → SheetSource) (p : String)
    (hp : sheetRaises p (srcs p)) :
    processSheet p (srcs p) = []
  ∧ process_main_po_data srcs
      = (SHEET_NAMES.map
          (fun n => if n = p then [] else processSheet n (srcs n))).flatten := by
  have hz : processSheet p (srcs p) = [] := by
    obtain ⟨g, hg, hne, hf⟩ := hp
    unfold processSheet
    rcases hf with hf | ⟨grid, hf, herr⟩
    · simp [hg, hne, hf]
    · simp [hg, hne, hf, herr]
  refine ⟨hz, ?_⟩
  unfold process_main_po_data
  refine congrArg List.flatten (List.map_congr_left ?_)
  intro n _
  by_cases hnp : n = p
  · rw [if_pos hnp, hnp, hz]
  · rw [if_neg hnp]

/-- Witness for C9: Zepto's sheet raises (its grid is empty) while
Blinkit still delivers its row. -/
theorem c9_witness : processSheet "Zepto" (srcs_nine "Zepto") = [] :=
  (c9_platform_isolation srcs_nine "Zepto"
    ⟨"gz", rfl, by decide, Or.inr ⟨[], rfl, rfl⟩⟩).1

theorem splitSlash1_no_slash (l : List Char) (h : l.contains '/' = false) :
    splitSlash1 l = (l, Option.none) := by
  induction l with
  | nil => rfl
  | cons c rest ih =>
    rw [List.contains_cons] at h
    simp only [Bool.or_eq_false_iff] at h
    unfold splitSlash1
    have hc : c ≠ '/' := by
      intro hcc
      subst hcc
      simp at h
    rw [if_neg hc, ih h.2]

/-- C10: splitting a composite without `/` on the first `/` yields the
whole composite as the city and a null platform suffix; the `Platform`
field of every output row is unconditionally the processing sheet's
own name; and in the concrete mixed batch `cands_mixed` the row with
the slashless composite `"Mumbai"` survives to the output with the
standardized whole composite as its city. -/
theorem c10_no_slash_composite :
    (∀ s : String, s.data.contains '/' = false →
       splitSlash1 s.data = (s.data, Option.none))
  ∧ (∀ (sheet : String) (cands : List Melted) (out : List FinalRow)
       (r : FinalRow), processMelted sheet cands = .ok out → r ∈ out →
       r.platform = PyVal.str sheet)
  ∧ processMelted "Blinkit" cands_mixed = .ok [row_mixA, row_mixB]
  ∧ row_mixB.city = standardize_city_name (.str "Mumbai")
  ∧ row_mixB.platform = PyVal.str "Blinkit" := by
  refine ⟨?_, ?_, rfl, by decide, rfl⟩
  · intro s h
    exact splitSlash1_no_slash s.data h
  · intro sheet cands out r hok hr
    obtain ⟨c, hc⟩ := processMelted_ok_mem hok hr
    exact (rowStep_some hc).2.2.2.1

/-- Witness for C10: the slashless split at `"Mumbai"` and the platform
overwrite at the concrete batch. -/
theorem c10_witness :
    splitSlash1 "Mumbai".data = ("Mumbai".data, Option.none)
  ∧ row_mixB.platform = PyVal.str "Blinkit" :=
  ⟨c10_no_slash_composite.1 "Mumbai" (by decide),
   c10_no_slash_composite.2.1 "Blinkit" cands_mixed [row_mixA, row_mixB]
     row_mixB rfl (by decide)⟩

end PODash
